import Mathlib

/-!
Verification of the live-reload server `liver` (src/source/lib.rs) against its
specification.  The Rust code is shallowly embedded: byte buffers are modelled
as `List Char` (every byte the program appends comes from ASCII string data,
so the identification is byte-faithful), filesystem paths as lists of
components, the filesystem and the `WS_PORT` environment variable as explicit
parameters, and the websocket/watcher loop as a small labelled transition
system.
-/

set_option maxRecDepth 20000

namespace Liver

/-- A byte buffer (`Vec<u8>` in the source); all bytes handled by the program
come from ASCII strings, so characters stand for bytes one for one. -/
abbrev Bytes := List Char

/-- A filesystem path as its list of components (`PathBuf`); `join` is
modelled as list append, exactly like `PathBuf::join` with the relative
segments Rocket hands over. -/
abbrev Path := List String

/-- The reload JavaScript constant `RELOAD_SCRIPT` of lib.rs, verbatim
(braces and apostrophes are written with their escape codes). -/
def RELOAD_SCRIPT : String :=
  "<script>\nconst socket = new WebSocket(\"ws://127.0.0.1:$\x7bWS_PORT\x7d\");\n\nsocket.addEventListener(\x27error\x27, (event) => \x7b\n  console.error(event);\n\x7d);\n\nsocket.addEventListener(\x27open\x27, (event) => \x7b\n  console.debug(\"Liver: reloading enabled!\");\n\x7d);\n\nsocket.addEventListener(\x27message\x27, (event) => \x7b\n  if (event.data === \x27Reload\x27) \x7b\n    console.debug(\x27Liver: reloading...\x27);\n    location.reload();\n  \x7d\n\x7d);\n</script>"

/-- The `WS_PORT_DEFAULT` constant of lib.rs. -/
def WS_PORT_DEFAULT : String := "8001"

/-- The placeholder that `static_files` substitutes the port for. -/
def WS_PORT_PATTERN : String := "$\x7bWS_PORT\x7d"

/-- The part of `RELOAD_SCRIPT` before the port placeholder. -/
def SCRIPT_PRE : String :=
  "<script>\nconst socket = new WebSocket(\"ws://127.0.0.1:"

/-- The part of `RELOAD_SCRIPT` after the port placeholder. -/
def SCRIPT_SUF : String :=
  "\");\n\nsocket.addEventListener(\x27error\x27, (event) => \x7b\n  console.error(event);\n\x7d);\n\nsocket.addEventListener(\x27open\x27, (event) => \x7b\n  console.debug(\"Liver: reloading enabled!\");\n\x7d);\n\nsocket.addEventListener(\x27message\x27, (event) => \x7b\n  if (event.data === \x27Reload\x27) \x7b\n    console.debug(\x27Liver: reloading...\x27);\n    location.reload();\n  \x7d\n\x7d);\n</script>"

/-- Does `s` begin with the pattern `pat`? -/
def beginsWith : List Char → List Char → Bool
  | _, [] => true
  | [], _ :: _ => false
  | c :: s, p :: ps => c = p && beginsWith s ps

/-- Index of the first occurrence of `pat` in `s`, if any. -/
def findFirst (s pat : List Char) : Option Nat :=
  match s with
  | [] => if beginsWith [] pat then some 0 else none
  | _ :: t => if beginsWith s pat then some 0 else (findFirst t pat).map (· + 1)

/-- Fuelled core of `replaceAll`; the fuel bounds the number of matches, and
`s.length` is enough fuel for any non-empty pattern. -/
def replaceAllAux (pat rep : List Char) : Nat → List Char → List Char
  | 0, s => s
  | fuel + 1, s =>
    match findFirst s pat with
    | none => s
    | some i => s.take i ++ rep ++ replaceAllAux pat rep fuel (s.drop (i + pat.length))

/-- Rust's `str::replace`: replace every (left-to-right, non-overlapping)
occurrence of `pat` in `s` by `rep`; the replacement text is never rescanned
(matching walks the original string only). -/
def replaceAll (s pat rep : List Char) : List Char :=
  replaceAllAux pat rep s.length s

/-- The `WS_PORT` environment read shared by `ws_url` and `static_files`:
`env::var("WS_PORT").unwrap_or_else(.. WS_PORT_DEFAULT ..)`, with the
environment state passed explicitly. -/
def wsPort (env : Option String) : String :=
  env.getD WS_PORT_DEFAULT

/-- `ws_url` of lib.rs: the address the websocket server binds to. -/
def ws_url (env : Option String) : String :=
  "127.0.0.1:" ++ wsPort env

/-- The reload snippet `static_files` builds per request:
`RELOAD_SCRIPT.replace("${WS_PORT}", port)` as bytes. -/
def reloadScript (env : Option String) : Bytes :=
  replaceAll RELOAD_SCRIPT.data WS_PORT_PATTERN.data (wsPort env).data

theorem replaceAllAux_of_none (pat rep : List Char) (f : Nat) (s : List Char)
    (h : findFirst s pat = none) : replaceAllAux pat rep f s = s := by
  cases f with
  | zero => rfl
  | succ n => simp [replaceAllAux, h]

theorem replaceAllAux_of_some (pat rep : List Char) (f i : Nat) (s : List Char)
    (h : findFirst s pat = some i) :
    replaceAllAux pat rep (f + 1) s
      = s.take i ++ rep ++ replaceAllAux pat rep f (s.drop (i + pat.length)) := by
  simp [replaceAllAux, h]

/-- Replacing a pattern that occurs exactly once, at the seam `a ++ pat ++ b`,
yields `a ++ rep ++ b`. -/
theorem replaceAll_split (a pat b rep : List Char)
    (hpat : pat ≠ [])
    (ha : findFirst (a ++ (pat ++ b)) pat = some a.length)
    (hb : findFirst b pat = none) :
    replaceAll (a ++ (pat ++ b)) pat rep = a ++ rep ++ b := by
  have hpos : 0 < (a ++ (pat ++ b)).length := by
    have hp := List.length_pos.mpr hpat
    simp only [List.length_append]
    omega
  have hlen : (a ++ (pat ++ b)).length = ((a ++ (pat ++ b)).length - 1) + 1 :=
    (Nat.succ_pred_eq_of_pos hpos).symm
  have ht : (a ++ (pat ++ b)).take a.length = a := List.take_left a (pat ++ b)
  have hd : (a ++ (pat ++ b)).drop (a.length + pat.length) = b := by
    rw [← List.append_assoc, ← List.length_append a pat]
    exact List.drop_left (a ++ pat) b
  rw [replaceAll, hlen, replaceAllAux_of_some _ _ _ _ _ ha, ht, hd,
    replaceAllAux_of_none _ _ _ _ hb]

/-- The reload snippet is the script text with the port spliced in at the
(unique) placeholder position, whatever the port string is. -/
theorem reloadScript_embed (env : Option String) :
    reloadScript env = SCRIPT_PRE.data ++ (wsPort env).data ++ SCRIPT_SUF.data := by
  have hEq : RELOAD_SCRIPT.data
      = SCRIPT_PRE.data ++ (WS_PORT_PATTERN.data ++ SCRIPT_SUF.data) := by decide
  rw [reloadScript, hEq]
  exact replaceAll_split _ _ _ _ (by decide) (by decide) (by decide)

/-- A filesystem node: a regular file with its bytes, or a directory. -/
inductive FsEntry
  | file (content : Bytes)
  | directory
deriving DecidableEq

/-- The filesystem, as a map from canonical paths (component lists with no
`.` or `..` segments) to nodes. -/
def FileSystem := Path → Option FsEntry

/-- OS-level canonicalisation applied when a path is looked up: `.` segments
vanish and `..` pops the previous component (at the root it stays put, as on
a POSIX filesystem). -/
def normalize (p : Path) : Path :=
  p.foldl
    (fun acc c =>
      if c = "." then acc
      else if c = ".." then acc.dropLast
      else acc ++ [c])
    []

/-- `std::fs::read`: the bytes of the file at `p`, or `none` on any failure
(no such entry, or the entry is a directory — the causes are not
distinguished, matching the single `Err` arm of the source). -/
def readFs (fs : FileSystem) (p : Path) : Option Bytes :=
  match fs (normalize p) with
  | some (FsEntry.file content) => some content
  | _ => none

/-- `Path::is_dir`. -/
def isDir (fs : FileSystem) (p : Path) : Bool :=
  match fs (normalize p) with
  | some FsEntry.directory => true
  | _ => false

/-- Is `p` inside the directory tree rooted at `root`? (Both already
canonical.)  Used only to state the path-escape property. -/
def underRoot (root p : Path) : Bool :=
  p.take root.length == root

/-- The component split at the last `.` of a file name, if it has a dot:
`before` is everything before that dot, `after` everything after it. -/
def splitAtLastDot : List Char → Option (List Char × List Char)
  | [] => none
  | c :: rest =>
    match splitAtLastDot rest with
    | some (before, after) => some (c :: before, after)
    | none => if c = '.' then some ([], rest) else none

/-- Rust `Path::extension` restricted to one file name: `none` when the name
has no dot, or is `..`, or its only dot is the leading one (dotfiles);
otherwise the text after the last dot. -/
def extOfFileName (name : String) : Option String :=
  if name = ".." then none
  else
    match splitAtLastDot name.data with
    | none => none
    | some (before, after) => if before = [] then none else some (String.mk after)

/-- Rust `Path::extension` on a full path: the extension of its last
component. -/
def rustExtension (p : Path) : Option String :=
  match p.getLast? with
  | none => none
  | some name => extOfFileName name

/-- The content types `static_files` can put on a response (the members of
the HTTP collaborator's extension table that matter here, plus `plain`, the
fallback). -/
inductive ContentType
  | html
  | plain
  | xml
  | csv
  | css
  | javascript
  | json
  | png
  | gif
  | jpeg
  | svg
  | ico
  | pdf
  | wasm
deriving DecidableEq

/-- ASCII lowering of one character (extensions are ASCII). -/
def lowerChar (c : Char) : Char :=
  if 'A' ≤ c ∧ c ≤ 'Z' then Char.ofNat (c.toNat + 32) else c

/-- ASCII lowering of a string, for the collaborator's uncased extension
comparison. -/
def lowerString (s : String) : String :=
  String.mk (s.data.map lowerChar)

/-- `ContentType::from_extension`: the case-insensitive standard
extension-to-media-type table of the HTTP collaborator (the rows for
extensions this model distinguishes; every unlisted extension is unknown,
i.e. `none`). -/
def contentTypeFromExtension (ext : String) : Option ContentType :=
  match lowerString ext with
  | "txt" => some ContentType.plain
  | "html" => some ContentType.html
  | "htm" => some ContentType.html
  | "xml" => some ContentType.xml
  | "csv" => some ContentType.csv
  | "css" => some ContentType.css
  | "js" => some ContentType.javascript
  | "json" => some ContentType.json
  | "png" => some ContentType.png
  | "gif" => some ContentType.gif
  | "jpg" => some ContentType.jpeg
  | "jpeg" => some ContentType.jpeg
  | "svg" => some ContentType.svg
  | "ico" => some ContentType.ico
  | "pdf" => some ContentType.pdf
  | "wasm" => some ContentType.wasm
  | _ => none

/-- An HTTP response of the responder: success with a content type and a
body, or the not-found status. -/
inductive Response
  | ok (contentType : ContentType) (body : Bytes)
  | notFound
deriving DecidableEq

/-- `static_files` of lib.rs.  The filesystem and the `WS_PORT` environment
state are the ambient state the Rust function touches, passed explicitly;
`path`/`source` are its parameters.  `none` for `path` is the call from the
`index` route. -/
def static_files (fs : FileSystem) (env : Option String)
    (path : Option Path) (source : Path) : Response :=
  let reload_script : Bytes := reloadScript env
  match path with
  | none =>
    let p : Path := source ++ ["index.html"]
    match readFs fs p with
    | some file => Response.ok ContentType.html (file ++ reload_script)
    | none => Response.notFound
  | some rel =>
    let p0 : Path := source ++ rel
    let p : Path := if isDir fs p0 then p0 ++ ["index.html"] else p0
    match readFs fs p with
    | some file =>
      let file_extension : String := (rustExtension p).getD ""
      let content_type : ContentType :=
        (contentTypeFromExtension file_extension).getD ContentType.plain
      Response.ok content_type
        (if content_type = ContentType.html then file ++ reload_script else file)
    | none => Response.notFound

/-- The `index` route of lib.rs: relays to `static_files` with no path. -/
def index (fs : FileSystem) (env : Option String) (source : Path) : Response :=
  static_files fs env none source

/-- The target path whose read decides `static_files`: `source/index.html`
for the index route, else `source/path`, with `index.html` joined when the
latter is a directory. -/
def codeTarget (fs : FileSystem) (path : Option Path) (source : Path) : Path :=
  match path with
  | none => source ++ ["index.html"]
  | some rel =>
    let t := source ++ rel
    if isDir fs t then t ++ ["index.html"] else t

/-- `hotwatch::notify::DebouncedEvent`, with paths as strings. -/
inductive DebouncedEvent
  | noticeWrite (p : String)
  | noticeRemove (p : String)
  | create (p : String)
  | write (p : String)
  | chmod (p : String)
  | remove (p : String)
  | rename (p q : String)
  | rescan
  | error (message : String)
deriving DecidableEq

/-- Is the event a content write (`DebouncedEvent::Write`)?  Creates,
deletes, renames, metadata-only changes and notices are not. -/
def isContentWrite : DebouncedEvent → Bool
  | DebouncedEvent.write _ => true
  | _ => false

/-- The event callback `watch` registers (lib.rs lines 80-85): the messages
it tells the captured connection sender to send for one event.  The source
sends exactly the literal `"Reload"`, and only for `Write` events. -/
def watchHandler (event : DebouncedEvent) : List String :=
  match event with
  | DebouncedEvent.write _ => ["Reload"]
  | _ => []

/-- The per-connection message handler the websocket factory returns
(`|_| Ok(())`, lib.rs line 87): every client-to-server message is ignored. -/
def onClientMessage (_message : String) : Except String Unit :=
  Except.ok ()

/-- An externally driven step of the websocket/watcher thread: a client
connects, a client drops its connection, or the filesystem reports an
event. -/
inductive SysAction
  | connect
  | disconnect (c : Nat)
  | fsEvent (e : DebouncedEvent)
deriving DecidableEq

/-- State of the websocket/watcher thread.  `hook` is the connection sender
captured by the currently registered hotwatch callback — `Hotwatch::watch`
keyed on the same path replaces the previous callback, so each `connect`
overwrites it.  `watcherAlive` goes false when the callback panics (the
`unwrap` on a failed send), after which no event is delivered again. -/
structure SysState where
  nextId : Nat
  connected : List Nat
  hook : Option Nat
  watcherAlive : Bool
deriving DecidableEq

/-- Before any client has connected: no watch registration exists. -/
def initState : SysState :=
  { nextId := 0, connected := [], hook := none, watcherAlive := true }

/-- One step of the websocket/watcher thread, returning the messages
delivered to connected clients.  On `connect` the new connection's sender
becomes the watch hook (replacing the old registration).  On an event, the
registered callback runs `watchHandler`; a send to a no-longer-connected
hook fails and its `unwrap` panic kills the watcher callback thread. -/
def sysStep (s : SysState) : SysAction → SysState × List (Nat × String)
  | SysAction.connect =>
    ({ s with
        nextId := s.nextId + 1
        connected := s.nextId :: s.connected
        hook := some s.nextId }, [])
  | SysAction.disconnect c =>
    ({ s with connected := s.connected.filter (fun x => x ≠ c) }, [])
  | SysAction.fsEvent e =>
    if s.watcherAlive then
      match s.hook, watchHandler e with
      | some c, m :: rest =>
        if c ∈ s.connected then (s, (m :: rest).map (fun msg => (c, msg)))
        else ({ s with watcherAlive := false }, [])
      | _, _ => (s, [])
    else (s, [])

/-- Run a whole action trace, collecting every delivered message in order. -/
def sysRun (s : SysState) : List SysAction → SysState × List (Nat × String)
  | [] => (s, [])
  | a :: rest =>
    let step := sysStep s a
    let next := sysRun step.1 rest
    (next.1, step.2 ++ next.2)

/-- Which startup steps of `watch` succeed. -/
structure WatchConfig where
  rootOk : Bool
  wsBindOk : Bool
  httpBindOk : Bool
deriving DecidableEq

/-- Fate of the spawned websocket/watcher thread: it panics (killing only
itself) when the websocket bind `unwrap` fails or when registering the watch
on a missing source root `unwrap`s; otherwise it serves connections
forever. -/
inductive BgOutcome
  | running
  | panicked
deriving DecidableEq

/-- Fate of the main thread: `Rocket::launch` blocks forever on success; on
a bind failure it returns a launch error whose silent drop aborts the
process by panic. -/
inductive MainOutcome
  | servesForever
  | abortsByPanic
deriving DecidableEq

/-- Observable behaviour of one `watch(path)` call. -/
structure WatchBehavior where
  background : BgOutcome
  main : MainOutcome
  returned : Option (Except String Unit)

/-- `watch` of lib.rs (lines 66-99), at the thread level.  The websocket
server and the file watcher run on the spawned thread (lines 70-90): their
`unwrap` failures panic that thread only, never the main one.  The main
thread runs `Rocket::launch` (lines 93-96): on success it blocks for the
process lifetime, on failure the ignored launch error panics when dropped.
Either way the trailing `Ok(())` (line 98) is unreachable, so `watch` never
returns a value to its caller. -/
def watchModel (c : WatchConfig) : WatchBehavior :=
  { background := if c.wsBindOk && c.rootOk then BgOutcome.running else BgOutcome.panicked
    main := if c.httpBindOk then MainOutcome.servesForever else MainOutcome.abortsByPanic
    returned := none }

/-- The target the claim about path resolution describes: `source/index.html`
when the request path is absent, `source/requestPath` otherwise, and in
either case (including the absent-path one) a directory target is replaced
by `target/index.html`. -/
def specTarget (fs : FileSystem) (path : Option Path) (source : Path) : Path :=
  let t : Path :=
    match path with
    | none => source ++ ["index.html"]
    | some rel => source ++ rel
  if isDir fs t then t ++ ["index.html"] else t

/-- The path-resolution claim as stated: the responder reads exactly
`specTarget`, failure of that read gives not-found and success never does. -/
def C3Statement : Prop :=
  ∀ (fs : FileSystem) (env : Option String) (path : Option Path) (source : Path),
    (readFs fs (specTarget fs path source) = none →
      static_files fs env path source = Response.notFound)
    ∧ ∀ raw : Bytes, readFs fs (specTarget fs path source) = some raw →
        static_files fs env path source ≠ Response.notFound

/-- A source root whose `index.html` is itself a directory that in turn holds
a readable `index.html` file. -/
def fsNestedIndex : FileSystem := fun p =>
  if p = ["root"] then some FsEntry.directory
  else if p = ["root", "index.html"] then some FsEntry.directory
  else if p = ["root", "index.html", "index.html"] then
    some (FsEntry.file "inner".data)
  else none

/-- A source root holding an ordinary `index.html` file and a stylesheet. -/
def fsSite : FileSystem := fun p =>
  if p = ["root"] then some FsEntry.directory
  else if p = ["root", "index.html"] then
    some (FsEntry.file "<html><body>Hi</body></html>".data)
  else if p = ["root", "style.css"] then
    some (FsEntry.file "body\x7bcolor:red\x7d".data)
  else none

/-- A filesystem with a readable file two levels above the served root. -/
def fsEscape : FileSystem := fun p =>
  if p = ["home", "user", "site"] then some FsEntry.directory
  else if p = ["home", "secret.txt"] then some (FsEntry.file "top secret".data)
  else none

/-- The served root inside `fsEscape`. -/
def SITE_ROOT : Path := ["home", "user", "site"]

/-- A request path that climbs out of the served root. -/
def ESCAPE_PATH : Path := ["..", "..", "secret.txt"]

/-- The content type `static_files` labels a successful response with: the
index route hardcodes HTML; the catch-all route infers it from the target's
extension, defaulting to plaintext. -/
def responseContentType (path : Option Path) (target : Path) : ContentType :=
  match path with
  | none => ContentType.html
  | some _ =>
    (contentTypeFromExtension ((rustExtension target).getD "")).getD ContentType.plain

/-- `static_files` is the read of `codeTarget`, labelled by
`responseContentType`, with the snippet appended exactly on HTML. -/
theorem static_files_eq (fs : FileSystem) (env : Option String)
    (path : Option Path) (source : Path) :
    static_files fs env path source =
      match readFs fs (codeTarget fs path source) with
      | some file =>
        Response.ok (responseContentType path (codeTarget fs path source))
          (if responseContentType path (codeTarget fs path source) = ContentType.html
            then file ++ reloadScript env else file)
      | none => Response.notFound := by
  cases path with
  | none =>
    cases hr : readFs fs (source ++ ["index.html"]) <;>
      simp [static_files, codeTarget, responseContentType, hr]
  | some rel =>
    by_cases hd : isDir fs (source ++ rel) = true <;>
      [cases hr : readFs fs (source ++ rel ++ ["index.html"]);
        cases hr : readFs fs (source ++ rel)] <;>
      simp [static_files, codeTarget, responseContentType, hd, hr]

/-- C1 (code behaviour at the failing input): the claim says a qualifying
file change sends "Reload" to every currently-connected push-channel client
and that later connections must not cut off earlier ones.  On the code, each
new connection's watch registration replaces the hook: with one client a
write reaches client 0, but once a second client has connected the same
write reaches only client 1, even though client 0 is still connected. -/
theorem c1_only_last_client_notified :
    (sysRun initState
      [SysAction.connect, SysAction.fsEvent (DebouncedEvent.write "f")]).2
      = [(0, "Reload")]
    ∧ (sysRun initState
      [SysAction.connect, SysAction.connect,
        SysAction.fsEvent (DebouncedEvent.write "f")]).2
      = [(1, "Reload")]
    ∧ 0 ∈ (sysRun initState
      [SysAction.connect, SysAction.connect,
        SysAction.fsEvent (DebouncedEvent.write "f")]).1.connected := by
  decide

/-- C2: every successful response body is the raw bytes of the resolved
target, with the reload snippet (which splices the configured port into the
script) appended exactly when the response content type is HTML. -/
theorem c2_injection_iff_html (fs : FileSystem) (env : Option String)
    (path : Option Path) (source : Path) (ct : ContentType) (body : Bytes)
    (h : static_files fs env path source = Response.ok ct body) :
    ∃ raw : Bytes,
      readFs fs (codeTarget fs path source) = some raw
      ∧ body = raw ++ (if ct = ContentType.html then reloadScript env else [])
      ∧ reloadScript env = SCRIPT_PRE.data ++ (wsPort env).data ++ SCRIPT_SUF.data := by
  rw [static_files_eq] at h
  cases hr : readFs fs (codeTarget fs path source) with
  | none => rw [hr] at h; exact absurd h (by simp)
  | some raw =>
    rw [hr] at h
    simp only [Response.ok.injEq] at h
    obtain ⟨hct, hbody⟩ := h
    subst hct
    subst hbody
    refine ⟨raw, rfl, ?_, reloadScript_embed env⟩
    by_cases hh :
      responseContentType path (codeTarget fs path source) = ContentType.html
    · simp [hh]
    · simp [hh]

/-- C2 witness: a stylesheet request against `fsSite` succeeds with content
type `text/css`, and the theorem instantiates to it. -/
theorem c2_injection_iff_html_witness :
    static_files fsSite none (some ["style.css"]) ["root"]
      = Response.ok ContentType.css "body\x7bcolor:red\x7d".data
    ∧ ∃ raw : Bytes,
        readFs fsSite (codeTarget fsSite (some ["style.css"]) ["root"]) = some raw
        ∧ "body\x7bcolor:red\x7d".data
            = raw ++ (if ContentType.css = ContentType.html then reloadScript none else [])
        ∧ reloadScript none
            = SCRIPT_PRE.data ++ (wsPort none).data ++ SCRIPT_SUF.data :=
  ⟨by decide,
    c2_injection_iff_html fsSite none (some ["style.css"]) ["root"]
      ContentType.css "body\x7bcolor:red\x7d".data (by decide)⟩

/-- C3 counterexample: the claim applies the directory-to-`index.html`
replacement in the absent-path case too; on the code the index route never
checks for a directory.  Against `fsNestedIndex` the claim's resolved target
`root/index.html/index.html` is readable, yet the code answers the index
request with not-found, so the claim as stated is false. -/
theorem c3_counterexample :
    readFs fsNestedIndex (specTarget fsNestedIndex none ["root"]) = some "inner".data
    ∧ static_files fsNestedIndex none none ["root"] = Response.notFound
    ∧ ¬ C3Statement :=
  ⟨by decide, by decide, fun h =>
    absurd (by decide : static_files fsNestedIndex none none ["root"] = Response.notFound)
      ((h fsNestedIndex none none ["root"]).2 "inner".data (by decide))⟩

/-- C3 amended: the target is `source/index.html` for an absent request path
and `source/requestPath` otherwise, with the directory replacement applied
only in the present-path case; the response is not-found exactly when
reading that target fails (one undistinguished failure answer, and a total
function of the inputs otherwise). -/
theorem c3_amended_resolution (fs : FileSystem) (env : Option String)
    (path : Option Path) (source : Path) :
    static_files fs env path source = Response.notFound
      ↔ readFs fs (codeTarget fs path source) = none := by
  rw [static_files_eq]
  cases hr : readFs fs (codeTarget fs path source) <;> simp [hr]

/-- C4 (code behaviour at the failing input): the claim says a failed send
to one client must not prevent delivery to the others nor crash the
notifier.  On the code the send is `unwrap`ed: after client 1 disconnects,
the next write panics the watcher callback, nothing is delivered to the
still-connected client 0, and no later write is ever delivered again. -/
theorem c4_send_failure_kills_watcher :
    (sysRun initState
      [SysAction.connect, SysAction.connect, SysAction.disconnect 1,
        SysAction.fsEvent (DebouncedEvent.write "a"),
        SysAction.fsEvent (DebouncedEvent.write "b")]).2 = []
    ∧ (sysRun initState
      [SysAction.connect, SysAction.connect, SysAction.disconnect 1,
        SysAction.fsEvent (DebouncedEvent.write "a"),
        SysAction.fsEvent (DebouncedEvent.write "b")]).1.watcherAlive = false
    ∧ (sysRun initState
      [SysAction.connect, SysAction.connect, SysAction.disconnect 1,
        SysAction.fsEvent (DebouncedEvent.write "a"),
        SysAction.fsEvent (DebouncedEvent.write "b")]).1.connected = [0] := by
  decide

/-- C5: the registered event callback asks for exactly one send, of the
literal "Reload", on a content-write event, and for none on any other event
kind; and the connection's message handler ignores every client-to-server
message. -/
theorem c5_reload_exactly_on_write (e : DebouncedEvent) :
    watchHandler e = (if isContentWrite e then ["Reload"] else [])
    ∧ (watchHandler e).length = (if isContentWrite e then 1 else 0)
    ∧ ∀ message : String, onClientMessage message = Except.ok () := by
  cases e <;> simp [watchHandler, isContentWrite, onClientMessage]

/-- C6: when `source/index.html` is a readable file, the index route and an
explicit request for `index.html` produce the same response (same body and
same content type), although they run through different branches. -/
theorem c6_index_routes_agree (fs : FileSystem) (env : Option String)
    (source : Path) (bytes : Bytes)
    (h : fs (normalize (source ++ ["index.html"])) = some (FsEntry.file bytes)) :
    index fs env source = static_files fs env (some ["index.html"]) source := by
  have hread : readFs fs (source ++ ["index.html"]) = some bytes := by
    simp [readFs, h]
  have hdir : isDir fs (source ++ ["index.html"]) = false := by
    simp [isDir, h]
  have hlast : (source ++ ["index.html"]).getLast? = some "index.html" :=
    List.getLast?_concat source
  have hext : rustExtension (source ++ ["index.html"]) = some "html" := by
    rw [rustExtension, hlast]
    decide
  have hct : (contentTypeFromExtension "html").getD ContentType.plain
      = ContentType.html := by decide
  rw [index, static_files_eq, static_files_eq]
  simp [codeTarget, responseContentType, hdir, hread, hext, hct]

/-- C6 witness: the concrete site root `fsSite` satisfies the readable
`index.html` hypothesis and the two routes answer identically on it. -/
theorem c6_index_routes_agree_witness :
    fsSite (normalize (["root"] ++ ["index.html"]))
      = some (FsEntry.file "<html><body>Hi</body></html>".data)
    ∧ index fsSite none ["root"] = static_files fsSite none (some ["index.html"]) ["root"] :=
  ⟨by decide,
    c6_index_routes_agree fsSite none ["root"] "<html><body>Hi</body></html>".data
      (by decide)⟩

/-- C7 (code behaviour at the failing input): the claim says every fatal
startup failure (here: the push-channel bind failing while everything else
succeeds) terminates the process, surfacing as an error from `watch`.  On
the code the failing `unwrap` panics only the spawned thread: `watch`
returns nothing, the background half is dead, and the HTTP half keeps
serving indefinitely. -/
theorem c7_ws_bind_failure_not_fatal :
    (watchModel { rootOk := true, wsBindOk := false, httpBindOk := true }).returned = none
    ∧ (watchModel { rootOk := true, wsBindOk := false, httpBindOk := true }).background
        = BgOutcome.panicked
    ∧ (watchModel { rootOk := true, wsBindOk := false, httpBindOk := true }).main
        = MainOutcome.servesForever
    ∧ ∀ c : WatchConfig, (watchModel c).returned = none :=
  ⟨rfl, rfl, rfl, fun _ => rfl⟩

/-- C8: for one fixed state of `WS_PORT` there is a single port string: the
websocket server binds `127.0.0.1:<port>`, the served snippet splices that
same port into the script, the port is "8001" when the variable is unset,
and the snippet depends on nothing but the port. -/
theorem c8_snippet_port_matches_bind_port (env : Option String) :
    ∃ p : String,
      ws_url env = "127.0.0.1:" ++ p
      ∧ reloadScript env = SCRIPT_PRE.data ++ p.data ++ SCRIPT_SUF.data
      ∧ (env = none → p = "8001")
      ∧ ∀ env2 : Option String, wsPort env2 = wsPort env → reloadScript env2 = reloadScript env :=
  ⟨wsPort env, rfl, reloadScript_embed env,
    fun henv => by rw [henv]; rfl,
    fun env2 h2 => by rw [reloadScript, reloadScript, h2]⟩

/-- C8 witness: with `WS_PORT` unset the bind address is `127.0.0.1:8001`. -/
theorem c8_snippet_port_matches_bind_port_witness :
    ws_url none = "127.0.0.1:8001" := by
  obtain ⟨p, hurl, _, hdef, _⟩ := c8_snippet_port_matches_bind_port none
  rw [hurl, hdef rfl]
  decide

/-- C9: no canonicalisation or bounds check guards the resolved target: the
request path `../../secret.txt` against the root `home/user/site` resolves
to `home/secret.txt`, which lies outside the root, and the responder reads
and returns its bytes. -/
theorem c9_path_escape_served :
    underRoot SITE_ROOT (normalize (SITE_ROOT ++ ESCAPE_PATH)) = false
    ∧ static_files fsEscape none (some ESCAPE_PATH) SITE_ROOT
        = Response.ok ContentType.plain "top secret".data := by
  decide

/-- C10: the index route reads `source/index.html` directly: when that is a
readable file the response is HTML with the snippet appended (no
extension-based inference, no directory check), and when it is itself a
directory the read fails and the route answers not-found instead of
descending to `index.html/index.html`. -/
theorem c10_index_branch (fs : FileSystem) (env : Option String) (source : Path) :
    (∀ bytes : Bytes,
      fs (normalize (source ++ ["index.html"])) = some (FsEntry.file bytes) →
        index fs env source = Response.ok ContentType.html (bytes ++ reloadScript env))
    ∧ (fs (normalize (source ++ ["index.html"])) = some FsEntry.directory →
        index fs env source = Response.notFound) := by
  constructor
  · intro bytes h
    have hread : readFs fs (source ++ ["index.html"]) = some bytes := by
      simp [readFs, h]
    rw [index, static_files_eq]
    simp [codeTarget, responseContentType, hread]
  · intro h
    have hread : readFs fs (source ++ ["index.html"]) = none := by
      simp [readFs, h]
    rw [index, static_files_eq]
    simp [codeTarget, hread]

/-- C10 witness: against `fsNestedIndex`, whose `root/index.html` is a
directory, the index route answers not-found; against `fsSite` it serves the
HTML file with the snippet appended. -/
theorem c10_index_branch_witness :
    fsNestedIndex (normalize (["root"] ++ ["index.html"])) = some FsEntry.directory
    ∧ index fsNestedIndex none ["root"] = Response.notFound
    ∧ index fsSite none ["root"]
        = Response.ok ContentType.html
            ("<html><body>Hi</body></html>".data ++ reloadScript none) :=
  ⟨by decide,
    (c10_index_branch fsNestedIndex none ["root"]).2 (by decide),
    (c10_index_branch fsSite none ["root"]).1 "<html><body>Hi</body></html>".data
      (by decide)⟩

end Liver
